import Mathlib

/-!
Verification of the `postgres-pool` connection pool (`Pool` in `src/index.ts`).

The pool's mutable state (`connections`, `idleConnections`, `connectionQueue`,
`isEnding`) is embedded as an explicit record, and each state-changing piece of
the source (`connect`, `PoolClient.release`, `_removeConnection`, `end`,
the waiter-timeout branch of `connect`) becomes a function from state to state.
The pure pieces (named-parameter rewriting in `query`, the connect-retry
classification in `_createConnection`, the budget checks of `_query`) become
pure Lean functions.  Wall-clock instants are natural numbers of milliseconds;
the asynchronous retry loops are driven by explicit traces of attempt outcomes.
-/

namespace PgPool

/-- A pooled client connection.  Its physical identity is `uniqueId`, the fresh
UUID assigned in `Pool.connect` (source line 322) and stored on the client in
`_createConnection` (line 534). -/
structure PoolClient where
  uniqueId : String
deriving DecidableEq, Repr

/-- A typed pool error: `PostgresPoolError` carries `message` and a stable
`code` string (source `PostgresPoolError.ts`). -/
structure PoolError where
  message : String
  code : String
deriving DecidableEq, Repr

/-- The pool options used by the embedded operations (`PoolOptionsBase` in the
source, restricted to the fields the verified code paths read). -/
structure PoolOptions where
  poolSize : Nat
  idleTimeoutMillis : Nat
  waitForAvailableConnectionTimeoutMillis : Nat
  connectionTimeoutMillis : Nat
  retryConnectionMaxRetries : Nat
  retryConnectionWaitMillis : Nat
  retryConnectionErrorCodes : List String
  reconnectOnDatabaseIsStartingError : Bool
  waitForDatabaseStartupMillis : Nat
  databaseStartupTimeoutMillis : Nat
  reconnectOnReadOnlyTransactionError : Bool
  waitForReconnectReadOnlyTransactionMillis : Nat
  readOnlyTransactionReconnectTimeoutMillis : Nat
  reconnectOnConnectionError : Bool
  waitForReconnectConnectionMillis : Nat
  connectionReconnectTimeoutMillis : Nat
deriving DecidableEq, Repr

/-- The default options installed by the `Pool` constructor (source lines
256-272). -/
def defaultOptions : PoolOptions where
  poolSize := 10
  idleTimeoutMillis := 10000
  waitForAvailableConnectionTimeoutMillis := 90000
  connectionTimeoutMillis := 5000
  retryConnectionMaxRetries := 5
  retryConnectionWaitMillis := 100
  retryConnectionErrorCodes := ["ENOTFOUND", "EAI_AGAIN", "ERR_PG_CONNECT_TIMEOUT", "timeout expired"]
  reconnectOnDatabaseIsStartingError := true
  waitForDatabaseStartupMillis := 0
  databaseStartupTimeoutMillis := 90000
  reconnectOnReadOnlyTransactionError := true
  waitForReconnectReadOnlyTransactionMillis := 0
  readOnlyTransactionReconnectTimeoutMillis := 90000
  reconnectOnConnectionError := true
  waitForReconnectConnectionMillis := 0
  connectionReconnectTimeoutMillis := 90000

/-- The pool's mutable fields (source lines 244-251): `connections` is the list
of connection ids counted against `poolSize`, `idleConnections` the released
clients, `connectionQueue` the ids of waiting acquire requests, `isEnding` the
shutdown latch. -/
structure PoolState where
  connections : List String
  idleConnections : List PoolClient
  connectionQueue : List String
  isEnding : Bool
deriving DecidableEq, Repr

/-- The state of a freshly constructed pool. -/
def initialPoolState : PoolState where
  connections := []
  idleConnections := []
  connectionQueue := []
  isEnding := false

/-- Observable property `totalCount` (source line 235): the number of
connections counted against the pool size. -/
def PoolState.totalCount (s : PoolState) : Nat := s.connections.length

/-- Observable property `idleCount` (source line 227). -/
def PoolState.idleCount (s : PoolState) : Nat := s.idleConnections.length

/-- Observable property `waitingCount` (source line 219). -/
def PoolState.waitingCount (s : PoolState) : Nat := s.connectionQueue.length

/-- State effect of `Pool._removeConnection` (source lines 655-687): splice the
first idle entry whose `uniqueId` matches, then splice the first occurrence of
the id from `connections`.  (The listener rewiring, timer clearing and
best-effort `client.end()` have no effect on the modelled state.) -/
def removeConnection (s : PoolState) (client : PoolClient) : PoolState :=
  let idle := s.idleConnections.eraseP (fun connection => connection.uniqueId == client.uniqueId)
  let conns := s.connections.erase client.uniqueId
  { s with idleConnections := idle, connections := conns }

/-- State effect of `PoolClient.release` (source lines 539-560): on `isEnding`
or an explicit remove flag the connection is removed; otherwise the head waiter
(if any) receives the client directly; otherwise with a positive idle timeout
the client is appended to the idle list; otherwise it is removed. -/
def releaseClient (opts : PoolOptions) (s : PoolState) (client : PoolClient)
    (removeFlag : Bool) : PoolState :=
  if s.isEnding || removeFlag then
    removeConnection s client
  else
    match s.connectionQueue with
    | _ :: rest => { s with connectionQueue := rest }
    | [] =>
      if 0 < opts.idleTimeoutMillis then
        { s with idleConnections := s.idleConnections ++ [client] }
      else
        removeConnection s client

/-- The immediate result of `Pool.connect` (source lines 306-372):
a typed failure on an ended pool, reuse of the head idle connection, the start
of `_createConnection` for a freshly pushed id, or an enqueued waiter. -/
inductive ConnectResult where
  | failed (e : PoolError)
  | reusedIdle (client : PoolClient)
  | creating (id : String)
  | queued (id : String)
deriving DecidableEq, Repr

/-- The `ERR_PG_CONNECT_POOL_ENDED` error thrown by `Pool.connect` (source
lines 307-309). -/
def poolEndedError : PoolError :=
  ⟨"Cannot use pool after calling end() on the pool", "ERR_PG_CONNECT_POOL_ENDED"⟩

/-- The `ERR_PG_CONNECT_POOL_CONNECTION_TIMEOUT` error thrown by the waiter
timeout of `Pool.connect` (source line 369). -/
def poolWaitTimeoutError : PoolError :=
  ⟨"Timed out while waiting for available connection in pool", "ERR_PG_CONNECT_POOL_CONNECTION_TIMEOUT"⟩

/-- Synchronous part of `Pool.connect` (source lines 306-342): the ended check,
idle reuse (shift from the front), pushing a fresh id while
`connections.length < poolSize`, or enqueueing the fresh id as a waiter. -/
def connectStep (opts : PoolOptions) (s : PoolState) (freshId : String) :
    ConnectResult × PoolState :=
  if s.isEnding then
    (.failed poolEndedError, s)
  else
    match s.idleConnections with
    | idleConnection :: rest => (.reusedIdle idleConnection, { s with idleConnections := rest })
    | [] =>
      if s.connections.length < opts.poolSize then
        (.creating freshId, { s with connections := s.connections ++ [freshId] })
      else
        (.queued freshId, { s with connectionQueue := s.connectionQueue ++ [freshId] })

/-- State effect of the `catch` in `Pool.connect` (source lines 330-338): a
failed `_createConnection` removes the id that was pushed for it. -/
def createFailedStep (s : PoolState) (id : String) : PoolState :=
  { s with connections := s.connections.erase id }

/-- The waiter-timeout branch of `Pool.connect` (source lines 358-370): the
waiter removes its own id from the connection queue and the acquire fails with
`ERR_PG_CONNECT_POOL_CONNECTION_TIMEOUT`. -/
def waiterTimeoutStep (s : PoolState) (id : String) : PoolError × PoolState :=
  (poolWaitTimeoutError, { s with connectionQueue := s.connectionQueue.erase id })

/-- State effect of `Pool.drainIdleConnections` (source lines 453-455):
`_removeConnection` applied to every member of a snapshot of the idle list. -/
def drainIdleConnections (s : PoolState) : PoolState :=
  s.idleConnections.foldl removeConnection s

/-- State effect of `Pool.end` (source lines 444-448): latch `isEnding` and
drain the idle connections. -/
def endPoolStep (s : PoolState) : PoolState :=
  drainIdleConnections { s with isEnding := true }

/-- One observable pool operation, used to quantify over operation
sequences. -/
inductive PoolOp where
  | connect (freshId : String)
  | createFailed (id : String)
  | release (client : PoolClient) (removeFlag : Bool)
  | remove (client : PoolClient)
  | waiterTimeout (id : String)
  | endPool
deriving DecidableEq, Repr

/-- State transition of a single pool operation. -/
def applyOp (opts : PoolOptions) (s : PoolState) : PoolOp → PoolState
  | .connect freshId => (connectStep opts s freshId).2
  | .createFailed id => createFailedStep s id
  | .release client removeFlag => releaseClient opts s client removeFlag
  | .remove client => removeConnection s client
  | .waiterTimeout id => (waiterTimeoutStep s id).2
  | .endPool => endPoolStep s

/-- Run a sequence of pool operations from a state. -/
def runOps (opts : PoolOptions) (s : PoolState) (ops : List PoolOp) : PoolState :=
  ops.foldl (applyOp opts) s

/-! ### Named-parameter rewriting (`Pool.query`, source lines 397-438)

The default `namedParameterFindRegExp` is `@(\w)+\b` with the global flag; the
default `getNamedParameterReplaceRegExp(token)` is `@token\b` (global); the
default `getNamedParameterName` strips the leading `@`.  In this character
model `\w` is an ASCII letter, digit or underscore, and the trailing `\b` after
a greedy `\w` run is the requirement that the next character (if any) is not a
word character. -/

/-- An ASCII word character, the `\w` class of the default regexes. -/
def isWordChar (c : Char) : Bool := c.isAlphanum || c == '_'

/-- The maximal leading run of word characters. -/
def takeWordRun : List Char → List Char
  | [] => []
  | c :: cs => if isWordChar c then c :: takeWordRun cs else []

/-- Drop the maximal leading run of word characters. -/
def dropWordRun : List Char → List Char
  | [] => []
  | c :: cs => if isWordChar c then dropWordRun cs else c :: cs

/-- Word boundary after a word character: the remainder is empty or starts
with a non-word character. -/
def atWordBoundary : List Char → Bool
  | [] => true
  | c :: _ => !isWordChar c

/-- Fuelled scan of `text.match(namedParameterFindRegExp)`: at each position an
`@` followed by a non-empty word run produces the match `@run` and the scan
resumes after it; otherwise the scan advances one character.  The fuel is the
remaining length, which every step strictly decreases. -/
def findTokenMatchesAux : Nat → List Char → List (List Char)
  | 0, _ => []
  | _ + 1, [] => []
  | fuel + 1, c :: cs =>
    if c == '@' && !(takeWordRun cs).isEmpty then
      ('@' :: takeWordRun cs) :: findTokenMatchesAux fuel (dropWordRun cs)
    else
      findTokenMatchesAux fuel cs

/-- All matches of the default `namedParameterFindRegExp` in a string
(`text.match(this.options.namedParameterFindRegExp)`, source line 407). -/
def findTokenMatches (text : List Char) : List (List Char) :=
  findTokenMatchesAux text.length text

/-- Default `getNamedParameterName` (source lines 278-281): remove the leading
`@` symbol. -/
def getNamedParameterName (matched : List Char) : List Char := matched.drop 1

/-- First-seen-order deduplication, the effect of
`Array.from(new Set(tokenMatches.map(getNamedParameterName)))` (source line
414). -/
def uniqueTokensAux (seen : List String) : List String → List String
  | [] => []
  | t :: ts =>
    if seen.contains t then uniqueTokensAux seen ts
    else t :: uniqueTokensAux (t :: seen) ts

/-- Unique token names in first-seen order. -/
def uniqueTokens (tokens : List String) : List String := uniqueTokensAux [] tokens

/-- Fuelled `sql.replace(getNamedParameterReplaceRegExp(token), repl)` with the
default replace regexp `@token\b` (global flags): every occurrence of
`@token` that ends at a word boundary is replaced, and scanning resumes after
the replaced occurrence.  The fuel is the remaining length, which every step
strictly decreases. -/
def replaceNamedParamAux (token repl : List Char) : Nat → List Char → List Char
  | 0, l => l
  | _ + 1, [] => []
  | fuel + 1, c :: cs =>
    if c == '@' && token.isPrefixOf cs && atWordBoundary (cs.drop token.length) then
      repl ++ replaceNamedParamAux token repl fuel (cs.drop token.length)
    else
      c :: replaceNamedParamAux token repl fuel cs

/-- Replace all word-boundary-delimited occurrences of `@token` (source line
431). -/
def replaceNamedParam (token repl text : List Char) : List Char :=
  replaceNamedParamAux token repl text.length text

/-- The rewrite loop of `Pool.query` (source lines 427-435): for each unique
token in order, replace its occurrences with the next positional placeholder
(starting at `$1`) and append the token's value from the map.  Returns the
rewritten text and the positional values. -/
def applyTokens (pairs : List (String × String)) :
    List String → Nat → List Char → List Char × List String
  | [], _, sql => (sql, [])
  | token :: rest, tokenIndex, sql =>
    let sql1 := replaceNamedParam token.toList ("$" ++ toString tokenIndex).toList sql
    let next := applyTokens pairs rest (tokenIndex + 1) sql1
    (next.1, ((pairs.lookup token).getD "") :: next.2)

/-- The values argument of `Pool.query`: a positional array, a named map
(modelled as an association list), or absent. -/
inductive QueryValues where
  | positional (vals : List String)
  | named (pairs : List (String × String))
  | noValues
deriving DecidableEq, Repr

/-- The `ERR_PG_QUERY_NO_NAMED_PARAMETERS` error (source line 409; the doubled
"in in" is verbatim from the source). -/
def noNamedParametersError : PoolError :=
  ⟨"Did not find named parameters in in the query. Expected named parameter form is @foo",
   "ERR_PG_QUERY_NO_NAMED_PARAMETERS"⟩

/-- The `ERR_PG_QUERY_MISSING_QUERY_PARAMETER` error (source line 424). -/
def missingParametersError (missingParameters : List String) : PoolError :=
  ⟨"Missing query parameter(s): " ++ String.intercalate ", " missingParameters,
   "ERR_PG_QUERY_MISSING_QUERY_PARAMETER"⟩

/-- The unique token names of a query text, in first-seen order. -/
def queryTokens (text : String) : List String :=
  uniqueTokens ((findTokenMatches text.toList).map (fun m => String.mk (getNamedParameterName m)))

/-- The argument validation and rewriting of `Pool.query` (source lines
397-438), everything that happens before `_query` is invoked.  `.ok (sql,
params)` means `_query sql params` is called next; `.error e` means `e` is
thrown without touching the pool. -/
def queryValidate (text : String) (values : QueryValues) :
    Except PoolError (String × List String) :=
  match values with
  | .positional vals => .ok (text, vals)
  | .noValues => .ok (text, [])
  | .named pairs =>
    if pairs.isEmpty then .ok (text, [])
    else
      if (findTokenMatches text.toList).isEmpty then
        .error noNamedParametersError
      else
        let tokens := queryTokens text
        let missingParameters := tokens.filter (fun token => (pairs.lookup token).isNone)
        if missingParameters.isEmpty then
          let rewritten := applyTokens pairs tokens 1 text.toList
          .ok (String.mk rewritten.1, rewritten.2)
        else
          .error (missingParametersError missingParameters)

/-- `Pool.query` up to the hand-off to the driver: validation and rewriting,
then the `connect` of `_query` (source line 459) on the current pool state.
Errors thrown during validation leave the state untouched. -/
def queryStep (opts : PoolOptions) (s : PoolState) (text : String)
    (values : QueryValues) (freshId : String) :
    Except PoolError (String × List String) × PoolState :=
  match queryValidate text values with
  | .error e => (.error e, s)
  | .ok plan =>
    match connectStep opts s freshId with
    | (.failed e, s1) => (.error e, s1)
    | (_, s1) => (.ok plan, s1)

/-! ### Connect-with-retry error handling (`Pool._createConnection`, source
lines 594-646) -/

/-- An error thrown by a connect attempt: the optional `code` property of
`PostgresPoolError` (absent on plain driver errors) and the message. -/
structure ConnError where
  code : Option String
  message : String
deriving DecidableEq, Repr

/-- JavaScript truthiness of the destructured `code` (source line 602):
present and non-empty. -/
def codeIsTruthy : Option String → Bool
  | none => false
  | some c => c != ""

/-- Contiguous-sublist test on character lists. -/
def listIsInfix (needle : List Char) : List Char → Bool
  | [] => needle.isEmpty
  | c :: cs => needle.isPrefixOf (c :: cs) || listIsInfix needle cs

/-- `message.includes(needle)`: contiguous substring test. -/
def includesSubstr (message needle : String) : Bool :=
  listIsInfix needle.toList message.toList

/-- ASCII lowering used to model the case-insensitive regex flags of the
source. -/
def lowerStr (s : String) : String := String.mk (s.toList.map Char.toLower)

/-- Case-insensitive substring test, modelling `/pattern/giu.test(message)` for
a literal pattern. -/
def testLiteralCI (message pattern : String) : Bool :=
  includesSubstr (lowerStr message) (lowerStr pattern)

/-- The `retryConnection` classification of `_createConnection` (source lines
600-612): with a non-zero retry budget, a truthy `code` is looked up in
`retryConnectionErrorCodes` (the message is NOT consulted in that case);
without a truthy code the message is scanned for each configured code as a
substring. -/
def retryConnectionClassify (opts : PoolOptions) (e : ConnError) : Bool :=
  if opts.retryConnectionMaxRetries != 0 then
    if codeIsTruthy e.code then
      opts.retryConnectionErrorCodes.contains (e.code.getD "")
    else
      opts.retryConnectionErrorCodes.any (fun errorCode => includesSubstr e.message errorCode)
  else
    false

/-- Whether the code-retry branch is taken (source line 614):
`retryConnection && retryAttempt < retryConnectionMaxRetries`. -/
def retryConnectionDecision (opts : PoolOptions) (e : ConnError) (retryAttempt : Nat) : Bool :=
  retryConnectionClassify opts e && decide (retryAttempt < opts.retryConnectionMaxRetries)

/-- The claim's (and spec's) wording of the code-retry condition, to be
compared with `retryConnectionDecision`: retry exactly when
`retryConnectionMaxRetries > 0` AND (the error's code is in
`retryConnectionErrorCodes` OR the message contains one of the codes) AND
`retryAttempt < retryConnectionMaxRetries`. -/
def retryConditionAsClaimed (opts : PoolOptions) (e : ConnError) (retryAttempt : Nat) : Bool :=
  decide (0 < opts.retryConnectionMaxRetries)
    && (opts.retryConnectionErrorCodes.contains (e.code.getD "")
      || opts.retryConnectionErrorCodes.any (fun errorCode => includesSubstr e.message errorCode))
    && decide (retryAttempt < opts.retryConnectionMaxRetries)

/-- The continuation chosen by the `catch` of `_createConnection`: a code
retry with `retryAttempt + 1`, a database-startup retry with `retryAttempt`
reset to `0`, or propagation of the error.  Both constructors carry the
preserved `createConnectionStartTime` and the (possibly just initialized)
`databaseStartupStartTime`. -/
inductive ConnectErrorAction where
  | retryOnError (nextRetryAttempt : Nat) (createConnectionStartTime : Nat)
      (databaseStartupStartTime : Option Nat)
  | retryDatabaseStartup (nextRetryAttempt : Nat) (createConnectionStartTime : Nat)
      (databaseStartupStartTime : Option Nat)
  | propagate (e : ConnError)
deriving DecidableEq, Repr

/-- The full observable outcome of the `catch` of `_createConnection`: the
chosen continuation, the events emitted on the way, and the sleep interval
requested (0 when the branch does not sleep). -/
structure ConnectErrorOutcome where
  action : ConnectErrorAction
  events : List String
  sleptMillis : Nat
deriving DecidableEq, Repr

/-- The `catch` of `_createConnection` (source lines 594-645), with wall-clock
instants made explicit: `timeAtStartupInit` is the instant at which
`databaseStartupStartTime ??= process.hrtime()` runs (line 628) and
`timeAtStartupCheck` the instant of the elapsed-time computation after the
startup sleep (line 634).  The code-retry branch is tried first; the
database-startup branch emits and sleeps before its budget check, and the
budget comparison is strict (`>` throws, source line 637). -/
def handleConnectError (opts : PoolOptions) (e : ConnError) (retryAttempt : Nat)
    (createConnectionStartTime : Nat) (databaseStartupStartTime : Option Nat)
    (timeAtStartupInit timeAtStartupCheck : Nat) : ConnectErrorOutcome :=
  if retryConnectionDecision opts e retryAttempt then
    { action := .retryOnError (retryAttempt + 1) createConnectionStartTime databaseStartupStartTime
      events := ["retryConnectionOnError"]
      sleptMillis := opts.retryConnectionWaitMillis }
  else if opts.reconnectOnDatabaseIsStartingError
      && testLiteralCI e.message "the database system is starting up" then
    let dbStart := databaseStartupStartTime.getD timeAtStartupInit
    let timeSinceFirstConnectAttempt := timeAtStartupCheck - dbStart
    if opts.databaseStartupTimeoutMillis < timeSinceFirstConnectAttempt then
      { action := .propagate e
        events := ["waitingForDatabaseToStart"]
        sleptMillis := opts.waitForDatabaseStartupMillis }
    else
      { action := .retryDatabaseStartup 0 createConnectionStartTime (some dbStart)
        events := ["waitingForDatabaseToStart"]
        sleptMillis := opts.waitForDatabaseStartupMillis }
  else
    { action := .propagate e, events := [], sleptMillis := 0 }

/-! ### The query retry loop (`Pool._query`, source lines 458-517) -/

/-- Outcome of one driver `connection.query` attempt. -/
inductive QueryAttemptOutcome where
  | ok (result : Nat)
  | err (message : String)
deriving DecidableEq, Repr

/-- One attempt of the `_query` retry loop: its outcome, the instant at which
`reconnectQueryStartTime ??= process.hrtime()` runs (source line 494), and the
instant of the elapsed-time computation after the retry sleep (line 504). -/
structure QueryAttempt where
  outcome : QueryAttemptOutcome
  timeAtInit : Nat
  timeAtCheck : Nat
deriving DecidableEq, Repr

/-- Result of running the `_query` retry loop on a finite trace of attempts. -/
inductive QueryLoopResult where
  | done (result : Nat)
  | failed (message : String)
  | outOfTrace
deriving DecidableEq, Repr

/-- Space-or-word character, the `[\s\w]` class of the read-only-transaction
regex. -/
def isSpaceOrWord (c : Char) : Bool := isWordChar c || c.isWhitespace

/-- Whether `/cannot execute [\s\w]+ in a read-only transaction/giu` matches at
the start of `cs`: the literal prefix, then a non-empty space-or-word run,
then the literal tail (with regex backtracking modelled by the existential
choice of the run length). -/
def readOnlyMatchAt (cs : List Char) : Bool :=
  "cannot execute ".toList.isPrefixOf cs &&
    (let rest := cs.drop "cannot execute ".length
     (List.range rest.length).any (fun k =>
        ((rest.take (k + 1)).all isSpaceOrWord)
          && " in a read-only transaction".toList.isPrefixOf (rest.drop (k + 1))))

/-- `/cannot execute [\s\w]+ in a read-only transaction/giu.test(message)`
(source line 469): a match may start anywhere.  The messages involved are
ASCII, so the case-insensitive flag is modelled by ASCII lowering. -/
def testReadOnlyRegex (message : String) : Bool :=
  (List.range (lowerStr message).toList.length).any
    (fun i => readOnlyMatchAt ((lowerStr message).toList.drop i))

/-- The connection-error test of `_query` (source line 472). -/
def testConnectionErrorRegex (message : String) : Bool :=
  testLiteralCI message "Client has encountered a connection error and is not queryable"

/-- The read-only classification of a failed query attempt (source line 469):
`reconnectOnReadOnlyTransactionError` and the read-only regex match. -/
def isReadOnlyQueryError (opts : PoolOptions) (message : String) : Bool :=
  opts.reconnectOnReadOnlyTransactionError && testReadOnlyRegex message

/-- The connection-error classification of a failed query attempt (source line
472, an `else if`, so it only applies when the read-only test did not). -/
def isConnectionQueryError (opts : PoolOptions) (message : String) : Bool :=
  !(isReadOnlyQueryError opts message) && opts.reconnectOnConnectionError
    && testConnectionErrorRegex message

/-- The `_query` retry loop (source lines 458-517) driven by a trace of
attempt outcomes.  A failed attempt is classified; unclassified errors are
rethrown at once (line 476); otherwise `reconnectQueryStartTime` is
initialized if unset (line 494), and after the configured sleep the elapsed
time is compared strictly against the matching budget: over budget rethrows
the error captured by THIS attempt (lines 507-513), otherwise the loop recurses
with the preserved start time (line 515). -/
def queryRetryLoop (opts : PoolOptions) (reconnectQueryStartTime : Option Nat) :
    List QueryAttempt → QueryLoopResult
  | [] => .outOfTrace
  | attempt :: rest =>
    match attempt.outcome with
    | .ok r => .done r
    | .err message =>
      if !(isReadOnlyQueryError opts message) && !(isConnectionQueryError opts message) then
        .failed message
      else if isReadOnlyQueryError opts message
          && decide (opts.readOnlyTransactionReconnectTimeoutMillis
            < attempt.timeAtCheck - reconnectQueryStartTime.getD attempt.timeAtInit) then
        .failed message
      else if isConnectionQueryError opts message
          && decide (opts.connectionReconnectTimeoutMillis
            < attempt.timeAtCheck - reconnectQueryStartTime.getD attempt.timeAtInit) then
        .failed message
      else
        queryRetryLoop opts (some (reconnectQueryStartTime.getD attempt.timeAtInit)) rest

/-- The error message of a failed attempt, if any. -/
def QueryAttempt.errMessage (attempt : QueryAttempt) : Option String :=
  match attempt.outcome with
  | .ok _ => none
  | .err message => some message

/-! ### Example inputs from the specification's end-to-end scenarios -/

/-- Scenario 1 query text. -/
def exampleQueryText : String :=
  "select foo from foobar where id=@id and (bar=@foobar or bar=@foo) and foo=@foo"

/-- Scenario 1 named values. -/
def exampleQueryPairs : List (String × String) :=
  [("id", "lorem"), ("foo", "lorem - foo"), ("foobar", "lorem - foobar"),
   ("unused", "lorem - unused")]

/-- Scenario 1 expected rewritten text. -/
def exampleQuerySql : String :=
  "select foo from foobar where id=$1 and (bar=$2 or bar=$3) and foo=$3"

/-- Scenario 1 expected positional values. -/
def exampleQueryParams : List String := ["lorem", "lorem - foobar", "lorem - foo"]

/-! ### Helper lemmas -/

theorem removeConnection_connections_length_le (s : PoolState) (client : PoolClient) :
    (removeConnection s client).connections.length ≤ s.connections.length := by
  simpa [removeConnection] using (List.erase_sublist client.uniqueId s.connections).length_le

theorem removeConnection_isEnding (s : PoolState) (client : PoolClient) :
    (removeConnection s client).isEnding = s.isEnding := rfl

theorem foldl_removeConnection_length_le (l : List PoolClient) (s : PoolState) :
    (l.foldl removeConnection s).connections.length ≤ s.connections.length := by
  induction l generalizing s with
  | nil => simp
  | cons c cs ih =>
    exact le_trans (ih (removeConnection s c)) (removeConnection_connections_length_le s c)

theorem foldl_removeConnection_isEnding (l : List PoolClient) (s : PoolState) :
    (l.foldl removeConnection s).isEnding = s.isEnding := by
  induction l generalizing s with
  | nil => simp
  | cons c cs ih => simpa using ih (removeConnection s c)

theorem connectStep_totalCount_le (opts : PoolOptions) (s : PoolState) (freshId : String)
    (h : s.connections.length ≤ opts.poolSize) :
    ((connectStep opts s freshId).2).connections.length ≤ opts.poolSize := by
  unfold connectStep
  split
  · exact h
  · split
    · exact h
    · by_cases hlt : s.connections.length < opts.poolSize
      · simp only [hlt, if_true]
        simpa using hlt
      · simp only [hlt, if_false]
        exact h

theorem releaseClient_totalCount_le (opts : PoolOptions) (s : PoolState) (client : PoolClient)
    (removeFlag : Bool) (h : s.connections.length ≤ opts.poolSize) :
    (releaseClient opts s client removeFlag).connections.length ≤ opts.poolSize := by
  unfold releaseClient
  split
  · exact le_trans (removeConnection_connections_length_le s client) h
  · split
    · exact h
    · split
      · exact h
      · exact le_trans (removeConnection_connections_length_le s client) h

theorem endPoolStep_totalCount_le (opts : PoolOptions) (s : PoolState)
    (h : s.connections.length ≤ opts.poolSize) :
    (endPoolStep s).connections.length ≤ opts.poolSize := by
  unfold endPoolStep drainIdleConnections
  exact le_trans (foldl_removeConnection_length_le _ _) h

theorem applyOp_totalCount_le (opts : PoolOptions) (s : PoolState) (op : PoolOp)
    (h : s.connections.length ≤ opts.poolSize) :
    (applyOp opts s op).connections.length ≤ opts.poolSize := by
  cases op with
  | connect freshId => exact connectStep_totalCount_le opts s freshId h
  | createFailed id =>
    exact le_trans (by simpa [createFailedStep] using
      (List.erase_sublist id s.connections).length_le) h
  | release client removeFlag => exact releaseClient_totalCount_le opts s client removeFlag h
  | remove client => exact le_trans (removeConnection_connections_length_le s client) h
  | waiterTimeout id => exact h
  | endPool => exact endPoolStep_totalCount_le opts s h

/-! ### Claim theorems -/

/-- C1: For every sequence of pool operations starting from a freshly
constructed pool, `totalCount` never exceeds `options.poolSize` at any state
observable between operations: `connect` pushes a new connection id only under
the guard `connections.length < poolSize`, a failed creation removes its id
again, and every other operation only removes ids or leaves them unchanged. -/
theorem pool_totalCount_never_exceeds_poolSize (opts : PoolOptions) (ops : List PoolOp) :
    (runOps opts initialPoolState ops).totalCount ≤ opts.poolSize := by
  have key : ∀ (l : List PoolOp) (s : PoolState), s.connections.length ≤ opts.poolSize →
      (runOps opts s l).connections.length ≤ opts.poolSize := by
    intro l
    induction l with
    | nil => intro s h; exact h
    | cons op rest ih =>
      intro s h
      exact ih (applyOp opts s op) (applyOp_totalCount_le opts s op h)
  simpa [PoolState.totalCount] using key ops initialPoolState (by simp [initialPoolState])

theorem eraseP_eraseP_of_countP_le_one {α : Type} {p : α → Bool} {l : List α}
    (h : l.countP p ≤ 1) : (l.eraseP p).eraseP p = l.eraseP p := by
  induction l with
  | nil => simp
  | cons x xs ih =>
    by_cases hx : p x
    · have hcons : (x :: xs).countP p = xs.countP p + 1 := by
        simp [List.countP_cons, hx]
      have hzero : xs.countP p = 0 := by omega
      have hnone : ∀ a ∈ xs, ¬p a := List.countP_eq_zero.mp hzero
      simp [List.eraseP_cons, hx, List.eraseP_of_forall_not hnone]
    · have hxs : xs.countP p ≤ 1 := by
        have := h
        simpa [List.countP_cons, hx] using this
      simp [List.eraseP_cons, hx, ih hxs]

theorem erase_erase_of_count_le_one {l : List String} {a : String}
    (h : l.count a ≤ 1) : (l.erase a).erase a = l.erase a := by
  have hzero : (l.erase a).count a = 0 := by
    have := List.count_erase_self a l
    omega
  exact List.erase_of_not_mem (List.count_eq_zero.mp hzero)

/-- C9: `_removeConnection` is idempotent on the accounting lists: when the
connection's id occurs at most once in `connections` and matches at most one
idle entry (as is the case for the fresh UUIDs the pool assigns), a second
remove of the same connection changes nothing, so `totalCount` is decremented
at most once and the idle list loses at most one entry. -/
theorem removeConnection_idempotent (s : PoolState) (client : PoolClient)
    (hconn : s.connections.count client.uniqueId ≤ 1)
    (hidle : s.idleConnections.countP
      (fun connection => connection.uniqueId == client.uniqueId) ≤ 1) :
    removeConnection (removeConnection s client) client = removeConnection s client := by
  simp [removeConnection, eraseP_eraseP_of_countP_le_one hidle,
    erase_erase_of_count_le_one hconn]

/-- Witness for C9 at a concrete two-connection state. -/
theorem removeConnection_idempotent_witness :
    removeConnection (removeConnection ⟨["a", "b"], [⟨"a"⟩], [], false⟩ ⟨"a"⟩) ⟨"a"⟩
      = removeConnection ⟨["a", "b"], [⟨"a"⟩], [], false⟩ ⟨"a"⟩ :=
  removeConnection_idempotent ⟨["a", "b"], [⟨"a"⟩], [], false⟩ ⟨"a"⟩ (by decide) (by decide)

/-- C10: an acquire that is enqueued as a waiter (pool not ending, idle list
empty, `connections` already at `poolSize`) and then times out fails with
`ERR_PG_CONNECT_POOL_CONNECTION_TIMEOUT` and removes exactly its own waiter id
from the connection queue, restoring the state to exactly what it was before
the acquire: `connections` and `idleConnections` are untouched, so
`totalCount` and `idleCount` are as if the acquire had never been made. -/
theorem waiter_timeout_restores_state (opts : PoolOptions) (s : PoolState) (freshId : String)
    (hEnding : s.isEnding = false)
    (hIdle : s.idleConnections = [])
    (hFull : opts.poolSize ≤ s.connections.length)
    (hFresh : freshId ∉ s.connectionQueue) :
    (connectStep opts s freshId).1 = .queued freshId
    ∧ (waiterTimeoutStep (connectStep opts s freshId).2 freshId).1 = poolWaitTimeoutError
    ∧ (waiterTimeoutStep (connectStep opts s freshId).2 freshId).2 = s := by
  have hq : connectStep opts s freshId
      = (.queued freshId, { s with connectionQueue := s.connectionQueue ++ [freshId] }) := by
    unfold connectStep
    simp [hEnding, hIdle, Nat.not_lt.mpr hFull]
  refine ⟨by simp [hq], rfl, ?_⟩
  simp [hq, waiterTimeoutStep, List.erase_append_right _ hFresh]

/-- Witness for C10 at a concrete full pool. -/
theorem waiter_timeout_restores_state_witness :
    (connectStep { defaultOptions with poolSize := 1 } ⟨["a"], [], [], false⟩ "w").1 = .queued "w"
    ∧ (waiterTimeoutStep
        (connectStep { defaultOptions with poolSize := 1 } ⟨["a"], [], [], false⟩ "w").2 "w").1
      = poolWaitTimeoutError
    ∧ (waiterTimeoutStep
        (connectStep { defaultOptions with poolSize := 1 } ⟨["a"], [], [], false⟩ "w").2 "w").2
      = ⟨["a"], [], [], false⟩ :=
  waiter_timeout_restores_state { defaultOptions with poolSize := 1 } ⟨["a"], [], [], false⟩ "w"
    rfl rfl (by decide) (by decide)

/-- C8 counterexample: with another connection already idle, releasing a held
connection appends it to the END of the idle list, while the immediately
following acquire shifts the FRONT of the idle list, so the acquire returns
the other (older) idle connection, not the one just released. -/
theorem release_then_acquire_counterexample :
    (connectStep defaultOptions
        (releaseClient defaultOptions ⟨["a", "b"], [⟨"a"⟩], [], false⟩ ⟨"b"⟩ false) "fresh").1
      = .reusedIdle ⟨"a"⟩
    ∧ (⟨"a"⟩ : PoolClient) ≠ ⟨"b"⟩ := by decide

/-- C8 (amended): when the pool is not ending, no waiter is queued, the idle
timeout is positive and the idle list is empty at release time, a release
followed by an immediate acquire returns the same physical connection. -/
theorem release_then_acquire_same_connection (opts : PoolOptions) (s : PoolState)
    (client : PoolClient) (freshId : String)
    (hEnding : s.isEnding = false)
    (hQueue : s.connectionQueue = [])
    (hIdle : s.idleConnections = [])
    (hTimeout : 0 < opts.idleTimeoutMillis) :
    (connectStep opts (releaseClient opts s client false) freshId).1 = .reusedIdle client := by
  unfold releaseClient connectStep
  simp [hEnding, hQueue, hIdle, hTimeout]

/-- Witness for the amended C8 at a concrete one-connection state. -/
theorem release_then_acquire_same_connection_witness :
    (connectStep defaultOptions
        (releaseClient defaultOptions ⟨["b"], [], [], false⟩ ⟨"b"⟩ false) "fresh").1
      = .reusedIdle ⟨"b"⟩ :=
  release_then_acquire_same_connection defaultOptions ⟨["b"], [], [], false⟩ ⟨"b"⟩ "fresh"
    rfl rfl rfl (by decide)

/-- C6 counterexample: on an ended pool, a `query` whose named values do not
correspond to any `@name` token in the text fails with
`ERR_PG_QUERY_NO_NAMED_PARAMETERS`, not `ERR_PG_CONNECT_POOL_ENDED`, because
named-parameter validation runs before `_query` ever calls `connect`. -/
theorem ended_pool_query_counterexample :
    (queryStep defaultOptions (endPoolStep initialPoolState) "select 1"
        (.named [("a", "x")]) "id1").1
      = .error noNamedParametersError
    ∧ noNamedParametersError.code ≠ poolEndedError.code :=
  ⟨rfl, by decide⟩

/-- C6 (amended): after `end()` the `isEnding` latch is set and no operation
clears it; every subsequent `connect` fails with `ERR_PG_CONNECT_POOL_ENDED`
without touching the state, and every `query` whose values pass
named-parameter validation (positional values, absent values, or a named map
whose validation returns a plan) fails with `ERR_PG_CONNECT_POOL_ENDED`.
Queries whose named-parameter validation fails keep their validation error
codes instead. -/
theorem ended_pool_rejects_acquire_and_query (opts : PoolOptions) (s : PoolState)
    (h : s.isEnding = true) :
    (∀ s0 : PoolState, (endPoolStep s0).isEnding = true)
    ∧ (∀ op : PoolOp, (applyOp opts s op).isEnding = true)
    ∧ (∀ freshId : String, connectStep opts s freshId = (.failed poolEndedError, s))
    ∧ (∀ (text : String) (vals : List String) (freshId : String),
        (queryStep opts s text (.positional vals) freshId).1 = .error poolEndedError)
    ∧ (∀ (text : String) (freshId : String),
        (queryStep opts s text .noValues freshId).1 = .error poolEndedError)
    ∧ (∀ (text : String) (pairs : List (String × String)) (freshId : String)
        (plan : String × List String), queryValidate text (.named pairs) = .ok plan →
        (queryStep opts s text (.named pairs) freshId).1 = .error poolEndedError) := by
  have hconn : ∀ freshId : String, connectStep opts s freshId = (.failed poolEndedError, s) := by
    intro freshId
    unfold connectStep
    simp [h]
  refine ⟨?_, ?_, hconn, ?_, ?_, ?_⟩
  · intro s0
    unfold endPoolStep drainIdleConnections
    simpa using foldl_removeConnection_isEnding _ { s0 with isEnding := true }
  · intro op
    cases op with
    | connect freshId => simp [applyOp, hconn freshId, h]
    | createFailed id => simpa [applyOp, createFailedStep] using h
    | release client removeFlag =>
      simp only [applyOp]
      unfold releaseClient
      simp [h, removeConnection]
    | remove client => simpa [applyOp, removeConnection] using h
    | waiterTimeout id => simpa [applyOp, waiterTimeoutStep] using h
    | endPool =>
      simp only [applyOp]
      unfold endPoolStep drainIdleConnections
      simpa using foldl_removeConnection_isEnding _ _
  · intro text vals freshId
    simp [queryStep, queryValidate, hconn freshId]
  · intro text freshId
    simp [queryStep, queryValidate, hconn freshId]
  · intro text pairs freshId plan hv
    simp [queryStep, hv, hconn freshId]

/-- Witness for the amended C6 on the ended empty pool. -/
theorem ended_pool_rejects_witness :
    (queryStep defaultOptions ⟨[], [], [], true⟩ "select 1" (.positional []) "id1").1
      = .error poolEndedError :=
  (ended_pool_rejects_acquire_and_query defaultOptions ⟨[], [], [], true⟩ rfl).2.2.2.1
    "select 1" [] "id1"

/-- C7: a `query` with a non-empty named-value map over a text that contains
`@name` tokens, some of which have no key in the map, fails with
`ERR_PG_QUERY_MISSING_QUERY_PARAMETER` and the message "Missing query
parameter(s): " followed by the missing keys in first-seen token order,
without calling `connect` and leaving the pool state unchanged. -/
theorem query_missing_parameters (opts : PoolOptions) (s : PoolState) (text : String)
    (pairs : List (String × String)) (freshId : String)
    (hPairs : pairs ≠ [])
    (hMatches : findTokenMatches text.toList ≠ [])
    (hMissing : (queryTokens text).filter
      (fun token => (pairs.lookup token).isNone) ≠ []) :
    queryStep opts s text (.named pairs) freshId
      = (.error (missingParametersError
          ((queryTokens text).filter (fun token => (pairs.lookup token).isNone))), s) := by
  have hM : ¬(findTokenMatches text.data = []) := hMatches
  unfold queryStep queryValidate
  simp [hPairs, hM, hMissing]

/-- Witness for C7: the specification's scenario 2. -/
theorem query_missing_parameters_witness :
    queryStep defaultOptions initialPoolState "select * from foobar where id=@id"
        (.named [("unused", "x")]) "id1"
      = (.error ⟨"Missing query parameter(s): id", "ERR_PG_QUERY_MISSING_QUERY_PARAMETER"⟩,
         initialPoolState) := by
  have h := query_missing_parameters defaultOptions initialPoolState
    "select * from foobar where id=@id" [("unused", "x")] "id1" (by decide) (by decide)
    (by decide)
  exact h.trans rfl

theorem applyTokens_params (pairs : List (String × String)) (tokens : List String)
    (tokenIndex : Nat) (sql : List Char) :
    (applyTokens pairs tokens tokenIndex sql).2
      = tokens.map (fun token => (pairs.lookup token).getD "") := by
  induction tokens generalizing tokenIndex sql with
  | nil => rfl
  | cons t ts ih => simp [applyTokens, ih]

/-- C2: named-parameter rewriting.  First, the specification's scenario 1
evaluates exactly as specified, with repeated tokens sharing one positional
index and the key absent from the query ignored.  Second, in general, every
successful rewrite of a non-empty named map passes the values of the unique
tokens in first-seen order, ignoring map keys that do not occur in the
query. -/
theorem query_named_rewrite :
    queryValidate exampleQueryText (.named exampleQueryPairs)
      = .ok (exampleQuerySql, exampleQueryParams)
    ∧ ∀ (text : String) (pairs : List (String × String)) (sql : String)
        (params : List String),
        pairs.isEmpty = false →
        queryValidate text (.named pairs) = .ok (sql, params) →
        params = (queryTokens text).map (fun token => (pairs.lookup token).getD "") := by
  constructor
  · rfl
  · intro text pairs sql params hPairs hOk
    unfold queryValidate at hOk
    simp only [hPairs, Bool.false_eq_true, if_false] at hOk
    split at hOk
    · exact absurd hOk (by simp)
    · split at hOk
      · simp only [Except.ok.injEq, Prod.mk.injEq] at hOk
        rw [← hOk.2]
        exact applyTokens_params pairs (queryTokens text) 1 text.toList
      · exact absurd hOk (by simp)

/-- Witness for C2: the general ordering statement instantiated at the
specification's scenario 1. -/
theorem query_named_rewrite_witness :
    exampleQueryParams
      = (queryTokens exampleQueryText).map
          (fun token => (exampleQueryPairs.lookup token).getD "") :=
  query_named_rewrite.2 exampleQueryText exampleQueryPairs exampleQuerySql exampleQueryParams
    rfl query_named_rewrite.1

/-- C3 counterexample: an error carrying a code that is NOT in
`retryConnectionErrorCodes` is not retried even though its message contains a
configured code as a substring — the source only consults the message when the
error has no (truthy) `code` property — while the claim's disjunctive
condition says it should be retried. -/
theorem retry_condition_counterexample :
    handleConnectError { defaultOptions with retryConnectionErrorCodes := ["timeout expired"] }
        ⟨some "EFOO", "timeout expired"⟩ 0 7 none 3 4
      = { action := .propagate ⟨some "EFOO", "timeout expired"⟩, events := [], sleptMillis := 0 }
    ∧ retryConditionAsClaimed
        { defaultOptions with retryConnectionErrorCodes := ["timeout expired"] }
        ⟨some "EFOO", "timeout expired"⟩ 0 = true := by
  constructor
  · rfl
  · decide

theorem retryConnectionDecision_iff (opts : PoolOptions) (e : ConnError) (retryAttempt : Nat) :
    retryConnectionDecision opts e retryAttempt = true
      ↔ (0 < opts.retryConnectionMaxRetries
          ∧ retryAttempt < opts.retryConnectionMaxRetries
          ∧ (if codeIsTruthy e.code then
              opts.retryConnectionErrorCodes.contains (e.code.getD "") = true
            else
              opts.retryConnectionErrorCodes.any
                (fun errorCode => includesSubstr e.message errorCode) = true)) := by
  unfold retryConnectionDecision retryConnectionClassify
  by_cases hmax : opts.retryConnectionMaxRetries = 0
  · simp [hmax]
  · have hpos : 0 < opts.retryConnectionMaxRetries := Nat.pos_of_ne_zero hmax
    by_cases hc : codeIsTruthy e.code
    · simp only [bne_iff_ne, ne_eq, hmax, not_false_eq_true, if_true, hc, Bool.and_eq_true,
        decide_eq_true_eq, if_pos, hpos, true_and]
      tauto
    · simp only [bne_iff_ne, ne_eq, hmax, not_false_eq_true, if_true, hc, Bool.and_eq_true,
        decide_eq_true_eq, Bool.not_eq_true, if_neg, hpos, true_and]
      tauto

/-- C3 (amended): a failed connect attempt takes the code-retry branch —
emitting `retryConnectionOnError`, sleeping `retryConnectionWaitMillis`, and
recursing with `retryAttempt + 1` while preserving both start timestamps —
exactly when `retryConnectionMaxRetries > 0`, `retryAttempt <
retryConnectionMaxRetries`, and EITHER the error carries a truthy code that is
a member of `retryConnectionErrorCodes`, OR the error carries no truthy code
and its message contains one of the configured codes as a substring.  (The
message is never consulted for an error that carries a code.) -/
theorem retry_decision_exact (opts : PoolOptions) (e : ConnError) (retryAttempt : Nat)
    (createConnectionStartTime : Nat) (databaseStartupStartTime : Option Nat)
    (timeAtStartupInit timeAtStartupCheck : Nat) :
    handleConnectError opts e retryAttempt createConnectionStartTime databaseStartupStartTime
        timeAtStartupInit timeAtStartupCheck
      = { action := .retryOnError (retryAttempt + 1) createConnectionStartTime
            databaseStartupStartTime
          events := ["retryConnectionOnError"]
          sleptMillis := opts.retryConnectionWaitMillis }
    ↔ (0 < opts.retryConnectionMaxRetries
        ∧ retryAttempt < opts.retryConnectionMaxRetries
        ∧ (if codeIsTruthy e.code then
            opts.retryConnectionErrorCodes.contains (e.code.getD "") = true
          else
            opts.retryConnectionErrorCodes.any
              (fun errorCode => includesSubstr e.message errorCode) = true)) := by
  rw [← retryConnectionDecision_iff]
  by_cases hd : retryConnectionDecision opts e retryAttempt = true
  · refine iff_of_true ?_ hd
    unfold handleConnectError
    rw [if_pos hd]
  · have hd' : retryConnectionDecision opts e retryAttempt = false := by
      simpa using hd
    refine iff_of_false ?_ hd
    intro h
    unfold handleConnectError at h
    rw [if_neg (by simp [hd'])] at h
    split at h
    · simp only [] at h
      split at h <;> simp at h
    · simp at h

/-- Witness for the amended C3: a connect timeout message with no error code
is retried under the default options. -/
theorem retry_decision_exact_witness :
    handleConnectError defaultOptions ⟨none, "timeout expired"⟩ 0 7 none 3 4
      = { action := .retryOnError 1 7 none
          events := ["retryConnectionOnError"]
          sleptMillis := defaultOptions.retryConnectionWaitMillis } :=
  (retry_decision_exact defaultOptions ⟨none, "timeout expired"⟩ 0 7 none 3 4).mpr
    (by refine ⟨by decide, by decide, ?_⟩; decide)

/-- C5: when a connect attempt fails, the code-retry branch does not apply,
`reconnectOnDatabaseIsStartingError` is set and the message matches the
database-starting pattern, the pool emits `waitingForDatabaseToStart`, sleeps
`waitForDatabaseStartupMillis`, initializes the startup clock if it was unset,
and recurses with `retryAttempt` reset to 0 if and only if the elapsed time
since the startup clock is at most `databaseStartupTimeoutMillis` (the budget
is inclusive); strictly greater elapsed time propagates the error instead. -/
theorem startup_retry_exact (opts : PoolOptions) (e : ConnError) (retryAttempt : Nat)
    (createConnectionStartTime : Nat) (databaseStartupStartTime : Option Nat)
    (timeAtStartupInit timeAtStartupCheck : Nat)
    (hNoCodeRetry : retryConnectionDecision opts e retryAttempt = false)
    (hFlag : opts.reconnectOnDatabaseIsStartingError = true)
    (hMsg : testLiteralCI e.message "the database system is starting up" = true) :
    (handleConnectError opts e retryAttempt createConnectionStartTime databaseStartupStartTime
        timeAtStartupInit timeAtStartupCheck).events = ["waitingForDatabaseToStart"]
    ∧ (handleConnectError opts e retryAttempt createConnectionStartTime databaseStartupStartTime
        timeAtStartupInit timeAtStartupCheck).sleptMillis = opts.waitForDatabaseStartupMillis
    ∧ ((handleConnectError opts e retryAttempt createConnectionStartTime databaseStartupStartTime
          timeAtStartupInit timeAtStartupCheck).action
        = .retryDatabaseStartup 0 createConnectionStartTime
            (some (databaseStartupStartTime.getD timeAtStartupInit))
        ↔ timeAtStartupCheck - databaseStartupStartTime.getD timeAtStartupInit
            ≤ opts.databaseStartupTimeoutMillis)
    ∧ (opts.databaseStartupTimeoutMillis
          < timeAtStartupCheck - databaseStartupStartTime.getD timeAtStartupInit →
        (handleConnectError opts e retryAttempt createConnectionStartTime
            databaseStartupStartTime timeAtStartupInit timeAtStartupCheck).action
          = .propagate e) := by
  have hred : handleConnectError opts e retryAttempt createConnectionStartTime
      databaseStartupStartTime timeAtStartupInit timeAtStartupCheck
      = (if opts.databaseStartupTimeoutMillis
            < timeAtStartupCheck - databaseStartupStartTime.getD timeAtStartupInit then
          { action := .propagate e
            events := ["waitingForDatabaseToStart"]
            sleptMillis := opts.waitForDatabaseStartupMillis }
        else
          { action := .retryDatabaseStartup 0 createConnectionStartTime
              (some (databaseStartupStartTime.getD timeAtStartupInit))
            events := ["waitingForDatabaseToStart"]
            sleptMillis := opts.waitForDatabaseStartupMillis }) := by
    unfold handleConnectError
    rw [if_neg (by simp [hNoCodeRetry]), if_pos (by simp [hFlag, hMsg])]
  by_cases hb : opts.databaseStartupTimeoutMillis
      < timeAtStartupCheck - databaseStartupStartTime.getD timeAtStartupInit
  · rw [hred, if_pos hb]
    refine ⟨rfl, rfl, ?_, fun _ => rfl⟩
    simp [Nat.not_le.mpr hb]
  · rw [hred, if_neg hb]
    refine ⟨rfl, rfl, ?_, fun h => absurd h hb⟩
    simp [Nat.not_lt.mp hb]

/-- Witness for C5: a database-starting failure within budget recurses with
the retry counter reset and the startup clock initialized. -/
theorem startup_retry_exact_witness :
    (handleConnectError defaultOptions ⟨none, "error: the database system is starting up"⟩ 0 7
        none 3 4).action = .retryDatabaseStartup 0 7 (some 3) :=
  ((startup_retry_exact defaultOptions ⟨none, "error: the database system is starting up"⟩ 0 7
      none 3 4 (by decide) rfl (by decide)).2.2.1).mpr (by decide)

/-- C4 counterexample: in the read-only-transaction retry loop of `_query`,
when the wall-clock budget is exceeded the error rethrown is the one captured
by the second (latest) failed attempt, which differs from the first attempt's
error, contradicting the claim that the originally captured error is
rethrown. -/
theorem budget_rethrows_latest_counterexample :
    queryRetryLoop { defaultOptions with readOnlyTransactionReconnectTimeoutMillis := 100 } none
        [⟨.err "cannot execute INSERT in a read-only transaction", 0, 0⟩,
         ⟨.err "cannot execute UPDATE in a read-only transaction", 150, 150⟩]
      = .failed "cannot execute UPDATE in a read-only transaction"
    ∧ ("cannot execute UPDATE in a read-only transaction" : String)
        ≠ "cannot execute INSERT in a read-only transaction" := by decide

/-- C4 (amended): when a wall-clock budget of the query retry loop is
exceeded, the error rethrown to the caller is the error captured by the
attempt at which the budget check failed — the latest attempt — not the first
attempt's error, which is not retained across the recursion.  In general
every error the loop rethrows is the error of one of its own attempts. -/
theorem query_budget_error_is_latest :
    (∀ (opts : PoolOptions) (start : Option Nat) (attempts : List QueryAttempt)
        (message : String),
        queryRetryLoop opts start attempts = .failed message →
        message ∈ attempts.filterMap QueryAttempt.errMessage)
    ∧ (∀ (opts : PoolOptions) (m1 m2 : String) (t1i t1c t2i t2c : Nat),
        opts.reconnectOnReadOnlyTransactionError = true →
        testReadOnlyRegex m1 = true →
        testReadOnlyRegex m2 = true →
        t1c - t1i ≤ opts.readOnlyTransactionReconnectTimeoutMillis →
        opts.readOnlyTransactionReconnectTimeoutMillis < t2c - t1i →
        queryRetryLoop opts none [⟨.err m1, t1i, t1c⟩, ⟨.err m2, t2i, t2c⟩]
          = .failed m2) := by
  constructor
  · intro opts start attempts
    induction attempts generalizing start with
    | nil => intro message h; simp [queryRetryLoop] at h
    | cons a rest ih =>
      intro message h
      unfold queryRetryLoop at h
      split at h
      · simp at h
      · rename_i msg heq
        have hmem : (a :: rest).filterMap QueryAttempt.errMessage
            = msg :: rest.filterMap QueryAttempt.errMessage := by
          simp [List.filterMap_cons, QueryAttempt.errMessage, heq]
        rw [hmem]
        split at h
        · cases h; exact List.mem_cons_self _ _
        · split at h
          · cases h; exact List.mem_cons_self _ _
          · split at h
            · cases h; exact List.mem_cons_self _ _
            · exact List.mem_cons_of_mem _ (ih _ message h)
  · intro opts m1 m2 t1i t1c t2i t2c hFlag hm1 hm2 hle hgt
    have hro1 : isReadOnlyQueryError opts m1 = true := by
      simp [isReadOnlyQueryError, hFlag, hm1]
    have hro2 : isReadOnlyQueryError opts m2 = true := by
      simp [isReadOnlyQueryError, hFlag, hm2]
    have hcn1 : isConnectionQueryError opts m1 = false := by
      simp [isConnectionQueryError, hro1]
    have hcn2 : isConnectionQueryError opts m2 = false := by
      simp [isConnectionQueryError, hro2]
    unfold queryRetryLoop
    simp only [hro1, hcn1, Bool.not_true, Bool.not_false, Bool.false_and, Bool.and_false,
      Bool.true_and, Bool.and_true, Option.getD_none, if_false, Bool.false_eq_true]
    rw [if_neg (by simp [Nat.not_lt.mpr hle])]
    unfold queryRetryLoop
    simp only [hro2, hcn2, Bool.not_true, Bool.not_false, Bool.false_and, Bool.and_false,
      Bool.true_and, Bool.and_true, Option.getD_some, Bool.false_eq_true, if_false]
    rw [if_pos (by simp [hgt])]

/-- Witness for the amended C4: a concrete two-attempt read-only trace whose
second attempt exceeds the budget fails with the second message. -/
theorem query_budget_error_is_latest_witness :
    queryRetryLoop { defaultOptions with readOnlyTransactionReconnectTimeoutMillis := 100 } none
        [⟨.err "cannot execute DELETE in a read-only transaction", 0, 20⟩,
         ⟨.err "cannot execute ALTER in a read-only transaction", 150, 150⟩]
      = .failed "cannot execute ALTER in a read-only transaction" :=
  query_budget_error_is_latest.2 _ "cannot execute DELETE in a read-only transaction"
    "cannot execute ALTER in a read-only transaction" 0 20 150 150 rfl (by decide) (by decide)
    (by decide) (by decide)

end PgPool
